import Mathlib

/-!
Verification of the smartroute-planner trip-matching core.

Shallow embedding of:
- the geodesy helpers (`calculateDistance`, `distanceToRoute`, `isAlongRoute`)
  from `src/app/api/trips/route.ts`;
- the match scoring loop and match-set builder of `POST /api/trips`;
- the trip-creation handler control flow (geocode / route / insert / match);
- the accept-match handler of `POST /api/trips/[id]/matches`;
- the cost estimator of `src/app/api/route/route.ts`.
-/

namespace SmartRoute

/-- A latitude/longitude pair, as the `[number, number]` tuples of the source. -/
abbrev Point : Type := ℝ × ℝ

/-- `toRad(degrees) = degrees * (Math.PI / 180)`. -/
noncomputable def toRad (degrees : ℝ) : ℝ := degrees * (Real.pi / 180)

/-- `Math.atan2(y, x)`, the two-argument arctangent; `Complex.arg ⟨x, y⟩`
computes exactly atan2 of the imaginary over the real part. -/
noncomputable def atan2 (y x : ℝ) : ℝ := Complex.arg ⟨x, y⟩

/-- `calculateDistance(start, end)`: haversine great-circle distance in km,
Earth radius `R = 6371`. -/
noncomputable def calculateDistance (start : Point) (stop : Point) : ℝ :=
  let R : ℝ := 6371
  let dLat := toRad (stop.1 - start.1)
  let dLon := toRad (stop.2 - start.2)
  let lat1 := toRad start.1
  let lat2 := toRad stop.1
  let a := Real.sin (dLat / 2) * Real.sin (dLat / 2) +
    Real.sin (dLon / 2) * Real.sin (dLon / 2) * Real.cos lat1 * Real.cos lat2
  let c := 2 * atan2 (Real.sqrt a) (Real.sqrt (1 - a))
  R * c

/-- `distanceToRoute(point, routeCoordinates)`: starts from `Infinity` (`⊤`)
and takes the minimum of the distances to every route vertex. -/
noncomputable def distanceToRoute (point : Point) (routeCoordinates : List Point) : EReal :=
  routeCoordinates.foldl
    (fun minDistance routePoint =>
      min minDistance ((calculateDistance point routePoint : ℝ) : EReal)) ⊤

/-- `isAlongRoute(point, routeCoordinates, thresholdKm)`:
`distanceToRoute(...) <= thresholdKm`. The source defaults `thresholdKm` to 5. -/
noncomputable def isAlongRoute (point : Point) (routeCoordinates : List Point)
    (thresholdKm : ℝ) : Prop :=
  distanceToRoute point routeCoordinates ≤ (thresholdKm : EReal)

/-- The fold of `min` is bounded by its initial accumulator. -/
lemma foldl_min_le_init (f : Point → EReal) (L : List Point) (init : EReal) :
    L.foldl (fun m v => min m (f v)) init ≤ init := by
  induction L generalizing init with
  | nil => simp
  | cons x xs ih =>
      calc xs.foldl (fun m v => min m (f v)) (min init (f x)) ≤ min init (f x) := ih _
        _ ≤ init := min_le_left _ _

/-- The fold of `min` is bounded by every listed value. -/
lemma foldl_min_le_mem (f : Point → EReal) (L : List Point) (init : EReal)
    (v : Point) (hv : v ∈ L) :
    L.foldl (fun m v => min m (f v)) init ≤ f v := by
  induction L generalizing init with
  | nil => cases hv
  | cons x xs ih =>
      rcases List.mem_cons.mp hv with h | h
      · subst h
        calc xs.foldl (fun m v => min m (f v)) (min init (f v)) ≤ min init (f v) :=
              foldl_min_le_init f xs _
          _ ≤ f v := min_le_right _ _
      · exact ih _ h

/-- The fold of `min` is either its initial accumulator or one of the values. -/
lemma foldl_min_eq_init_or_mem (f : Point → EReal) (L : List Point) (init : EReal) :
    L.foldl (fun m v => min m (f v)) init = init ∨
      ∃ v ∈ L, L.foldl (fun m v => min m (f v)) init = f v := by
  induction L generalizing init with
  | nil => exact Or.inl rfl
  | cons x xs ih =>
      rcases ih (min init (f x)) with h | ⟨v, hv, h⟩
      · simp only [List.foldl_cons] at *
        rcases min_cases init (f x) with ⟨he, _⟩ | ⟨he, _⟩
        · exact Or.inl (h.trans he)
        · exact Or.inr ⟨x, List.mem_cons_self x xs, h.trans he⟩
      · exact Or.inr ⟨v, List.mem_cons_of_mem x hv, by simpa using h⟩

/-! ## Trip rows and the match scoring loop (`POST /api/trips`, lines 256–331) -/

/-- A row of the `trips` table, as selected and used by the matching loop.
Coordinates are modelled already parsed (the source stores `"lat,lon"` text and
splits it back); `routeGeometry` is the stored polyline or `null`. -/
structure Trip where
  id : ℕ
  userId : String
  source : String
  destination : String
  sourceCoordinates : Option Point
  destinationCoordinates : Option Point
  travelDate : String
  travelTime : String
  transportMode : String
  optimizationMode : String
  status : String
  routeData : Option String
  routeGeometry : Option (List Point)
  createdAt : String
  updatedAt : String

/-- A row of the `trip_matches` table. The database assigns `id` by
autoincrement; rows emitted by the builder are modelled with `id = 0` since no
claim depends on the generated ids. -/
structure TripMatch where
  id : ℕ
  tripId : ℕ
  matchedTripId : ℕ
  matchScore : ℕ
  status : String
  createdAt : String
deriving DecidableEq

/-- `s.toLowerCase()`: character-wise lowercasing. -/
def toLowerCase (s : String) : String := String.mk (s.data.map Char.toLower)

/-- Rule 1: `destination.toLowerCase() === potentialMatch.destination.toLowerCase()`. -/
def sameDestinationCond (subjectDestination : String) (potentialMatch : Trip) : Prop :=
  toLowerCase subjectDestination = toLowerCase potentialMatch.destination

/-- The guard shared by rules 2–4:
`coords && geometry && geometry.length > 0 && isAlongRoute(coords, geometry, 5)`. -/
def alongRouteCond (coords : Option Point) (geometry : Option (List Point)) : Prop :=
  match coords, geometry with
  | some p, some g => 0 < g.length ∧ isAlongRoute p g 5
  | _, _ => False

/-- Rule 5: `potentialMatch.travelDate === sanitizedData.travelDate`. -/
def sameDateCond (subjectDate : String) (potentialMatch : Trip) : Prop :=
  potentialMatch.travelDate = subjectDate

/-- Rule 6: `potentialMatch.transportMode.toLowerCase() === sanitizedData.transportMode.toLowerCase()`. -/
def sameModeCond (subjectMode : String) (potentialMatch : Trip) : Prop :=
  toLowerCase potentialMatch.transportMode = toLowerCase subjectMode

section
attribute [local instance] Classical.propDecidable

/-- The body of the matching loop: `matchScore` accumulated by the six rules
(50 same destination, 40 pickup along route, 40 dropoff along route,
30 routes overlap, 30 same date, 20 same transport mode). -/
noncomputable def computeMatchScore (subjectDestination : String)
    (sourceCoords destCoords : Option Point) (routeGeometry : Option (List Point))
    (subjectDate subjectMode : String) (potentialMatch : Trip) : ℕ :=
  let s1 := if sameDestinationCond subjectDestination potentialMatch then 0 + 50 else 0
  let s2 := if alongRouteCond sourceCoords potentialMatch.routeGeometry then s1 + 40 else s1
  let s3 := if alongRouteCond destCoords potentialMatch.routeGeometry then s2 + 40 else s2
  let s4 := if alongRouteCond potentialMatch.sourceCoordinates routeGeometry then s3 + 30 else s3
  let s5 := if sameDateCond subjectDate potentialMatch then s4 + 30 else s4
  if sameModeCond subjectMode potentialMatch then s5 + 20 else s5

end

/-- Lines 309–330: `if (matchScore > 50)` push the bidirectional pair
(trip → matched trip and matched trip → trip), both `pending`, both stamped
with the one `matchTimestamp`. -/
def matchRecordsFor (createdTripId : ℕ) (matchTimestamp : String)
    (potentialMatch : Trip) (matchScore : ℕ) : List TripMatch :=
  if matchScore > 50 then
    [⟨0, createdTripId, potentialMatch.id, matchScore, "pending", matchTimestamp⟩,
     ⟨0, potentialMatch.id, createdTripId, matchScore, "pending", matchTimestamp⟩]
  else []

/-- The whole matching pass over `potentialMatches`, collecting `matchInserts`. -/
noncomputable def buildMatchInserts (subjectDestination : String)
    (sourceCoords destCoords : Option Point) (routeGeometry : Option (List Point))
    (subjectDate subjectMode : String) (createdTripId : ℕ) (matchTimestamp : String)
    (potentialMatches : List Trip) : List TripMatch :=
  potentialMatches.flatMap fun pm =>
    matchRecordsFor createdTripId matchTimestamp pm
      (computeMatchScore subjectDestination sourceCoords destCoords routeGeometry
        subjectDate subjectMode pm)

/-- `db.insert(tripMatches).values(matchInserts)`: a plain batch append — the
`trip_matches` table of `drizzle/0001_watery_kang.sql` has no uniqueness
constraint over `(trip_id, matched_trip_id)`. -/
def insertMatches (store : List TripMatch) (records : List TripMatch) : List TripMatch :=
  store ++ records

/-- How many stored rows carry a given `(tripId, matchedTripId)` pair. -/
def countPair (store : List TripMatch) (t m : ℕ) : ℕ :=
  (store.filter fun r => r.tripId == t && r.matchedTripId == m).length

/-- The two status updates of the accept-match handler
(`src/app/api/trips/[id]/matches/route.ts`, lines 104–127): set
`status = 'accepted'` on every row with pair `(tripId, matchedTripId)`, then on
every row with the reversed pair. -/
def updateAccept (store : List TripMatch) (tripId matchedTripId : ℕ) : List TripMatch :=
  (store.map fun r =>
      if r.tripId = tripId ∧ r.matchedTripId = matchedTripId then
        { r with status := "accepted" } else r).map fun r =>
    if r.tripId = matchedTripId ∧ r.matchedTripId = tripId then
      { r with status := "accepted" } else r

/-- The mirror-record invariant: every pending or accepted match has the
reverse row, with the two trip ids swapped and the same score. -/
def mirrorInv (store : List TripMatch) : Prop :=
  ∀ r ∈ store, (r.status = "pending" ∨ r.status = "accepted") →
    ∃ q ∈ store, q.tripId = r.matchedTripId ∧ q.matchedTripId = r.tripId ∧
      q.matchScore = r.matchScore

/-! ## The `POST /api/trips` handler control flow -/

/-- The result of `calculateRouteGeometry` when OSRM answers with a route. -/
structure RouteResult where
  coordinates : List Point
  distance : ℝ
  duration : ℝ

/-- The external world of one request: session resolution, the two network
services, and the outcomes of the two database writes. `matchingFails` injects
a fault anywhere in the `try { … } catch (matchError)` matching block. -/
structure Env where
  sessionUser : Option String
  geocodeRes : String → Option Point
  routeRes : Option RouteResult
  tripInsertOk : Bool
  matchingFails : Bool
  newTripId : ℕ
  now : String
  matchTs : String

/-- The parsed JSON request body. `hasUserIdKey` models
`'userId' in requestBody || 'user_id' in requestBody`. -/
structure ReqBody where
  hasUserIdKey : Bool
  source : Option String
  destination : Option String
  travelDate : Option String
  travelTime : Option String
  transportMode : Option String
  optimizationMode : Option String
  routeData : Option String

/-- The persistent state touched by the handler. -/
structure Store where
  trips : List Trip
  tripMatches : List TripMatch

/-- An HTTP response: status, the error `code` of the JSON body when present,
and the created trip when the body is a trip row. -/
structure Resp where
  status : ℕ
  code : Option String
  trip : Option Trip

/-- JavaScript truthiness of a required body field: present and non-empty. -/
def fieldOk (o : Option String) : Bool :=
  match o with
  | none => false
  | some s => !(s == "")

/-- The `POST /api/trips` handler (lines 142–350): session check, `userId`
rejection, required-field check, geocoding, routing, trip insert, then the
best-effort matching pass wrapped in its own try/catch. -/
noncomputable def postTrips (env : Env) (body : ReqBody) (st : Store) : Resp × Store :=
  match env.sessionUser with
  | none => (⟨401, some "AUTHENTICATION_REQUIRED", none⟩, st)
  | some uid =>
    if body.hasUserIdKey then (⟨400, some "USER_ID_NOT_ALLOWED", none⟩, st)
    else if fieldOk body.source && fieldOk body.destination && fieldOk body.travelDate &&
        fieldOk body.travelTime && fieldOk body.transportMode &&
        fieldOk body.optimizationMode then
      let source := (body.source.getD "").trim
      let destination := (body.destination.getD "").trim
      let travelDate := (body.travelDate.getD "").trim
      let travelTime := (body.travelTime.getD "").trim
      let transportMode := (body.transportMode.getD "").trim
      let optimizationMode := (body.optimizationMode.getD "").trim
      match env.geocodeRes source, env.geocodeRes destination with
      | some sourceCoords, some destCoords =>
        let routeGeometry : Option (List Point) :=
          (env.routeRes.map RouteResult.coordinates)
        if env.tripInsertOk then
          let createdTrip : Trip :=
            ⟨env.newTripId, uid, source, destination, some sourceCoords, some destCoords,
              travelDate, travelTime, transportMode, optimizationMode, "active",
              body.routeData.filter (fun s => !(s == "")), routeGeometry, env.now, env.now⟩
          let st1 : Store := ⟨st.trips ++ [createdTrip], st.tripMatches⟩
          let st2 : Store :=
            if env.matchingFails then st1
            else
              let potentialMatches := st1.trips.filter fun t =>
                t.status == "active" && !(t.userId == uid)
              ⟨st1.trips, st1.tripMatches ++ buildMatchInserts destination (some sourceCoords)
                (some destCoords) routeGeometry travelDate transportMode env.newTripId
                env.matchTs potentialMatches⟩
          (⟨201, none, some createdTrip⟩, st2)
        else (⟨500, some "CREATION_FAILED", none⟩, st)
      | _, _ => (⟨400, some "GEOCODING_FAILED", none⟩, st)
    else (⟨400, some "MISSING_REQUIRED_FIELDS", none⟩, st)

/-! ## The accept-match handler (`POST /api/trips/[id]/matches`) -/

/-- A row of the `groups` table. -/
structure GroupRow where
  id : ℕ
  name : String
  tripId : Option ℕ
  createdBy : String
  status : String
  createdAt : String
  updatedAt : String
deriving DecidableEq

/-- A row of the `group_members` table (the autoincrement id is not used). -/
structure MemberRow where
  groupId : ℕ
  userId : String
  role : String
  joinedAt : String
deriving DecidableEq

/-- The tables touched by match acceptance. -/
structure AcceptState where
  trips : List Trip
  tripMatches : List TripMatch
  groups : List GroupRow
  groupMembers : List MemberRow

/-- The accept-match response: status, error code, and the group with its
member list on success. -/
structure AcceptResp where
  status : ℕ
  code : Option String
  group : Option GroupRow
  members : Option (List MemberRow)

/-- The accept-match handler: ownership check, match lookup and
direction check, the two mirrored status updates, then group provisioning —
join the first group whose originating trip id is either trip id (adding the
accepting user as `member` when absent), or create a new group with the
accepting user as `admin` and the matched trip's owner as `member`.
`newGroupId` models the id the database assigns to a freshly inserted group. -/
def acceptMatch (st : AcceptState) (sessionUserId : String) (tripId matchIdInt : ℕ)
    (now : String) (newGroupId : ℕ) : AcceptResp × AcceptState :=
  match st.trips.find? (fun t => t.id == tripId && t.userId == sessionUserId) with
  | none =>
    match st.trips.find? (fun t => t.id == tripId) with
    | none => (⟨404, some "TRIP_NOT_FOUND", none, none⟩, st)
    | some _ => (⟨403, some "FORBIDDEN", none, none⟩, st)
  | some trip =>
    match st.tripMatches.find? (fun m => m.id == matchIdInt) with
    | none => (⟨404, some "MATCH_NOT_FOUND", none, none⟩, st)
    | some matchRecord =>
      if matchRecord.tripId ≠ tripId then (⟨400, some "MATCH_MISMATCH", none, none⟩, st)
      else
        let matchedTripId := matchRecord.matchedTripId
        let st1 : AcceptState :=
          { st with tripMatches := updateAccept st.tripMatches tripId matchedTripId }
        match st1.trips.find? (fun t => t.id == matchedTripId) with
        | none => (⟨404, some "MATCHED_TRIP_NOT_FOUND", none, none⟩, st1)
        | some matchedTrip =>
          let matchedUserId := matchedTrip.userId
          match st1.groups.find?
              (fun g => g.tripId == some tripId || g.tripId == some matchedTripId) with
          | some group =>
            let st2 : AcceptState :=
              match st1.groupMembers.find?
                  (fun m => m.groupId == group.id && m.userId == sessionUserId) with
              | some _ => st1
              | none =>
                { st1 with groupMembers :=
                    st1.groupMembers ++ [⟨group.id, sessionUserId, "member", now⟩] }
            let members := st2.groupMembers.filter fun m => m.groupId == group.id
            (⟨200, none, some group, some members⟩, st2)
          | none =>
            let groupName := "Trip to " ++ trip.destination ++ " - " ++ trip.travelDate
            let group : GroupRow :=
              ⟨newGroupId, groupName, some tripId, sessionUserId, "active", now, now⟩
            let st2 : AcceptState :=
              { st1 with
                groups := st1.groups ++ [group]
                groupMembers := st1.groupMembers ++
                  [⟨newGroupId, sessionUserId, "admin", now⟩,
                   ⟨newGroupId, matchedUserId, "member", now⟩] }
            let members := st2.groupMembers.filter fun m => m.groupId == group.id
            (⟨201, none, some group, some members⟩, st2)

/-! ## Cost estimation (`src/app/api/route/route.ts`) -/

/-- The `costPerKm` lookup table, `undefined` (`none`) off the six keys. -/
def costPerKm (mode : String) : Option ℚ :=
  match mode with
  | "car" => some (5/10)
  | "cycling" => some 0
  | "walking" => some 0
  | "bus" => some (15/100)
  | "train" => some (25/100)
  | "flight" => some (8/10)
  | _ => none

/-- `estimateCost(distanceKm, mode)`: `rate = costPerKm[mode] || 0.3` — the
JavaScript `||` falls back to `0.3` both when the key is absent (`undefined`)
and when the stored rate is the falsy number `0`. -/
def estimateCost (distanceKm : ℚ) (mode : String) : ℚ :=
  let rate : ℚ :=
    match costPerKm mode with
    | some c => if c = 0 then 3/10 else c
    | none => 3/10
  distanceKm * rate

/-- The main-route cost of the `POST /api/route` handler (lines 233–252):
`estimateCost(distance / 1000, transportMode)`, then `cost * 0.8` exactly when
`optimizationMode === "cheapest"`. -/
def mainRouteCost (distanceMeters : ℚ) (transportMode optimizationMode : String) : ℚ :=
  let cost := estimateCost (distanceMeters / 1000) transportMode
  if optimizationMode = "cheapest" then cost * (8/10) else cost

/-! ## Claim theorems -/

/-- C8: the point-to-route distance is `⊤` (infinity) on the empty polyline;
on a non-empty polyline it is attained at some vertex and bounds the haversine
distance to every vertex (so it is the minimum over the vertices); and the
is-along-route predicate with threshold `t` holds iff that distance is at
most `t`. -/
theorem C8_distanceToRoute_is_vertex_min :
    (∀ p : Point, distanceToRoute p [] = ⊤) ∧
    (∀ (p : Point) (L : List Point), L ≠ [] →
      (∃ v ∈ L, distanceToRoute p L = ((calculateDistance p v : ℝ) : EReal)) ∧
      (∀ v ∈ L, distanceToRoute p L ≤ ((calculateDistance p v : ℝ) : EReal))) ∧
    (∀ (p : Point) (L : List Point) (t : ℝ),
      isAlongRoute p L t ↔ distanceToRoute p L ≤ ((t : ℝ) : EReal)) := by
  refine ⟨fun p => rfl, ?_, fun p L t => Iff.rfl⟩
  intro p L hL
  constructor
  · rcases foldl_min_eq_init_or_mem
        (fun v => ((calculateDistance p v : ℝ) : EReal)) L ⊤ with h | ⟨v, hv, h⟩
    · obtain ⟨v, hv⟩ := List.exists_mem_of_ne_nil L hL
      have hle := foldl_min_le_mem
        (fun v => ((calculateDistance p v : ℝ) : EReal)) L ⊤ v hv
      rw [h] at hle
      exact absurd (top_le_iff.mp hle) (EReal.coe_ne_top _)
    · exact ⟨v, hv, h⟩
  · intro v hv
    exact foldl_min_le_mem (fun v => ((calculateDistance p v : ℝ) : EReal)) L ⊤ v hv

/-- Witness for C8 at the one-vertex polyline `[(0, 0)]`. -/
theorem C8_distanceToRoute_is_vertex_min_witness :
    (([((0 : ℝ), (0 : ℝ))] : List Point) ≠ []) ∧
    ((∃ v ∈ [((0 : ℝ), (0 : ℝ))], distanceToRoute ((0 : ℝ), (0 : ℝ)) [((0 : ℝ), (0 : ℝ))] =
        ((calculateDistance ((0 : ℝ), (0 : ℝ)) v : ℝ) : EReal)) ∧
      (∀ v ∈ [((0 : ℝ), (0 : ℝ))], distanceToRoute ((0 : ℝ), (0 : ℝ)) [((0 : ℝ), (0 : ℝ))] ≤
        ((calculateDistance ((0 : ℝ), (0 : ℝ)) v : ℝ) : EReal))) :=
  ⟨by simp, C8_distanceToRoute_is_vertex_min.2.1 ((0 : ℝ), (0 : ℝ))
    [((0 : ℝ), (0 : ℝ))] (by simp)⟩

section
attribute [local instance] Classical.propDecidable

/-- The accumulated score is the independent sum of the six rule bonuses. -/
lemma computeMatchScore_eq (sd : String) (sc dc : Option Point)
    (rg : Option (List Point)) (date mode : String) (pm : Trip) :
    computeMatchScore sd sc dc rg date mode pm =
      (if sameDestinationCond sd pm then 50 else 0) +
      (if alongRouteCond sc pm.routeGeometry then 40 else 0) +
      (if alongRouteCond dc pm.routeGeometry then 40 else 0) +
      (if alongRouteCond pm.sourceCoordinates rg then 30 else 0) +
      (if sameDateCond date pm then 30 else 0) +
      (if sameModeCond mode pm then 20 else 0) := by
  simp only [computeMatchScore]
  split_ifs <;> norm_num

/-- C1: the match score of a subject/candidate pair is the sum of the points
of exactly the rules whose conditions hold — 50 for case-insensitively equal
destination texts, 40/40/30 for the three 5 km route-proximity rules (false
whenever the needed polyline is missing or empty or the needed coordinate is
missing), 30 for equal travel dates, and 20 for case-insensitively equal
transport modes — and is therefore between 0 and 210. -/
theorem C1_score_is_weighted_rule_sum (sd : String) (sc dc : Option Point)
    (rg : Option (List Point)) (date mode : String) (pm : Trip) :
    computeMatchScore sd sc dc rg date mode pm =
      (if sameDestinationCond sd pm then 50 else 0) +
      (if alongRouteCond sc pm.routeGeometry then 40 else 0) +
      (if alongRouteCond dc pm.routeGeometry then 40 else 0) +
      (if alongRouteCond pm.sourceCoordinates rg then 30 else 0) +
      (if sameDateCond date pm then 30 else 0) +
      (if sameModeCond mode pm then 20 else 0) ∧
    computeMatchScore sd sc dc rg date mode pm ≤ 210 := by
  refine ⟨computeMatchScore_eq sd sc dc rg date mode pm, ?_⟩
  rw [computeMatchScore_eq]
  split_ifs <;> norm_num

/-- C2: match records are emitted for a candidate exactly when its score is
strictly above 50; in particular when only the same-destination rule holds the
score is exactly 50 and no record is emitted. -/
theorem C2_match_threshold_strict (sd : String) (sc dc : Option Point)
    (rg : Option (List Point)) (date mode : String) (pm : Trip)
    (tid : ℕ) (ts : String) :
    (matchRecordsFor tid ts pm (computeMatchScore sd sc dc rg date mode pm) ≠ [] ↔
      50 < computeMatchScore sd sc dc rg date mode pm) ∧
    (sameDestinationCond sd pm →
      ¬ alongRouteCond sc pm.routeGeometry →
      ¬ alongRouteCond dc pm.routeGeometry →
      ¬ alongRouteCond pm.sourceCoordinates rg →
      ¬ sameDateCond date pm →
      ¬ sameModeCond mode pm →
      computeMatchScore sd sc dc rg date mode pm = 50 ∧
        matchRecordsFor tid ts pm (computeMatchScore sd sc dc rg date mode pm) = []) := by
  constructor
  · unfold matchRecordsFor
    by_cases h : 50 < computeMatchScore sd sc dc rg date mode pm <;> simp [h]
  · intro h1 h2 h3 h4 h5 h6
    have hs : computeMatchScore sd sc dc rg date mode pm = 50 := by
      rw [computeMatchScore_eq]
      simp [h1, h2, h3, h4, h5, h6]
    refine ⟨hs, ?_⟩
    rw [hs]
    simp [matchRecordsFor]

end

/-- Witness for C2: subject with destination "paris", date 2024-01-01, mode
car and no geometry, against a candidate headed to "Paris" on 2024-01-02 by
bus with no geometry: only the destination rule fires, the score is 50, no
match records are created. -/
theorem C2_match_threshold_strict_witness :
    sameDestinationCond "paris"
      ⟨2, "bob", "A", "Paris", none, none, "2024-01-02", "10:00", "bus", "shortest",
        "active", none, none, "t", "t"⟩ ∧
    computeMatchScore "paris" none none none "2024-01-01" "car"
      ⟨2, "bob", "A", "Paris", none, none, "2024-01-02", "10:00", "bus", "shortest",
        "active", none, none, "t", "t"⟩ = 50 ∧
    matchRecordsFor 1 "ts"
      ⟨2, "bob", "A", "Paris", none, none, "2024-01-02", "10:00", "bus", "shortest",
        "active", none, none, "t", "t"⟩
      (computeMatchScore "paris" none none none "2024-01-01" "car"
        ⟨2, "bob", "A", "Paris", none, none, "2024-01-02", "10:00", "bus", "shortest",
          "active", none, none, "t", "t"⟩) = [] := by
  have h1 : sameDestinationCond "paris"
      ⟨2, "bob", "A", "Paris", none, none, "2024-01-02", "10:00", "bus", "shortest",
        "active", none, none, "t", "t"⟩ := by unfold sameDestinationCond; decide
  have h5 : ¬ sameDateCond "2024-01-01"
      ⟨2, "bob", "A", "Paris", none, none, "2024-01-02", "10:00", "bus", "shortest",
        "active", none, none, "t", "t"⟩ := by unfold sameDateCond; decide
  have h6 : ¬ sameModeCond "car"
      ⟨2, "bob", "A", "Paris", none, none, "2024-01-02", "10:00", "bus", "shortest",
        "active", none, none, "t", "t"⟩ := by unfold sameModeCond; decide
  have h := (C2_match_threshold_strict "paris" none none none "2024-01-01" "car"
      ⟨2, "bob", "A", "Paris", none, none, "2024-01-02", "10:00", "bus", "shortest",
        "active", none, none, "t", "t"⟩ 1 "ts").2
    h1 (fun h => h) (fun h => h) (fun h => h) h5 h6
  exact ⟨h1, h.1, h.2⟩

/-- C6 counterexample: inserting the same one-row batch twice leaves two rows
with the pair `(1, 2)` in the store — duplicates are stored, not ignored, so
the batch insertion is not idempotent. -/
theorem C6_duplicate_rows_counterexample :
    countPair
      (insertMatches (insertMatches [] [⟨0, 1, 2, 80, "pending", "t"⟩])
        [⟨0, 1, 2, 80, "pending", "t"⟩]) 1 2 = 2 := by decide

/-- C6 amended: `insertMatches` is a plain append — the stored count of every
`(tripId, matchedTripId)` pair grows by the batch's count on each invocation,
so a second identical batch stores every pair a second time. -/
theorem C6_insert_is_append (store records : List TripMatch) (t m : ℕ) :
    countPair (insertMatches store records) t m =
      countPair store t m + countPair records t m := by
  unfold insertMatches countPair
  rw [List.filter_append, List.length_append]

/-- C9: the per-mode rates of `estimateCost` are read through the JavaScript
`costPerKm[mode] || 0.3`, whose `||` treats the rate `0` as absent: cycling
and walking are billed at the default 0.3 per km instead of the table's (and
the spec's) 0, while the other modes and the 20% "cheapest" discount behave
as specified. At the failing input — 1000 m by cycling — the code returns
cost 0.3 rather than 0. -/
theorem C9_zero_rate_falsy_bug :
    mainRouteCost 1000 "cycling" "fastest" = 3/10 ∧
    mainRouteCost 1000 "walking" "fastest" = 3/10 ∧
    (mainRouteCost 1000 "cycling" "fastest" ≠ (1000 / 1000) * 0) ∧
    mainRouteCost 1000 "car" "fastest" = (1000 / 1000) * (5/10) ∧
    mainRouteCost 1000 "car" "cheapest" = ((1000 / 1000) * (5/10)) * (8/10) ∧
    mainRouteCost 1000 "hoverboard" "fastest" = (1000 / 1000) * (3/10) := by
  refine ⟨?_, ?_, ?_, ?_, ?_, ?_⟩ <;>
    simp [mainRouteCost, estimateCost, costPerKm]

/-- The first acceptance update on a single stored row. -/
def acceptFirst (t c : ℕ) (r : TripMatch) : TripMatch :=
  if r.tripId = t ∧ r.matchedTripId = c then { r with status := "accepted" } else r

/-- The second (reversed-pair) acceptance update on a single stored row. -/
def acceptSecond (t c : ℕ) (r : TripMatch) : TripMatch :=
  if r.tripId = c ∧ r.matchedTripId = t then { r with status := "accepted" } else r

/-- The effect of the two acceptance updates on a single stored row. -/
def acceptFlip (t c : ℕ) (r : TripMatch) : TripMatch :=
  acceptSecond t c (acceptFirst t c r)

/-- The two sequential updates are one map of `acceptFlip`. -/
lemma updateAccept_eq_map (store : List TripMatch) (t c : ℕ) :
    updateAccept store t c = store.map (acceptFlip t c) := by
  unfold updateAccept acceptFlip acceptFirst acceptSecond
  rw [List.map_map]
  rfl

/-- `acceptFirst` never touches the trip ids or the score. -/
lemma acceptFirst_ids (t c : ℕ) (r : TripMatch) :
    (acceptFirst t c r).tripId = r.tripId ∧
    (acceptFirst t c r).matchedTripId = r.matchedTripId ∧
    (acceptFirst t c r).matchScore = r.matchScore := by
  unfold acceptFirst
  split_ifs <;> simp

/-- `acceptSecond` never touches the trip ids or the score. -/
lemma acceptSecond_ids (t c : ℕ) (r : TripMatch) :
    (acceptSecond t c r).tripId = r.tripId ∧
    (acceptSecond t c r).matchedTripId = r.matchedTripId ∧
    (acceptSecond t c r).matchScore = r.matchScore := by
  unfold acceptSecond
  split_ifs <;> simp

/-- `acceptFlip` never touches the trip ids or the score. -/
lemma acceptFlip_ids (t c : ℕ) (r : TripMatch) :
    (acceptFlip t c r).tripId = r.tripId ∧
    (acceptFlip t c r).matchedTripId = r.matchedTripId ∧
    (acceptFlip t c r).matchScore = r.matchScore := by
  unfold acceptFlip
  obtain ⟨h1, h2, h3⟩ := acceptSecond_ids t c (acceptFirst t c r)
  obtain ⟨g1, g2, g3⟩ := acceptFirst_ids t c r
  exact ⟨h1.trans g1, h2.trans g2, h3.trans g3⟩

/-- A row carrying either direction of the accepted pair ends up `accepted`. -/
lemma acceptFlip_sets (t c : ℕ) (r : TripMatch)
    (h : (r.tripId = t ∧ r.matchedTripId = c) ∨ (r.tripId = c ∧ r.matchedTripId = t)) :
    (acceptFlip t c r).status = "accepted" := by
  unfold acceptFlip acceptSecond
  rcases h with h | h
  · have hfst : (acceptFirst t c r).status = "accepted" := by
      unfold acceptFirst
      rw [if_pos h]
    split_ifs <;> simp [hfst]
  · obtain ⟨g1, g2, _⟩ := acceptFirst_ids t c r
    rw [if_pos (by rw [g1, g2]; exact h)]

/-- Every row the Match Set Builder emits has its mirror in the same batch:
trip ids swapped, same score, both `pending`, both carrying the one batch
timestamp. -/
lemma buildMatchInserts_mirror (sd : String) (sc dc : Option Point)
    (rg : Option (List Point)) (date mode : String) (tid : ℕ) (ts : String)
    (cands : List Trip) (r : TripMatch)
    (hr : r ∈ buildMatchInserts sd sc dc rg date mode tid ts cands) :
    ∃ q ∈ buildMatchInserts sd sc dc rg date mode tid ts cands,
      q.tripId = r.matchedTripId ∧ q.matchedTripId = r.tripId ∧
      q.matchScore = r.matchScore ∧ q.status = "pending" ∧ r.status = "pending" ∧
      q.createdAt = ts ∧ r.createdAt = ts := by
  unfold buildMatchInserts at hr ⊢
  rw [List.mem_flatMap] at hr
  obtain ⟨pm, hpm, hr⟩ := hr
  by_cases h : 50 < computeMatchScore sd sc dc rg date mode pm
  · simp only [matchRecordsFor, if_pos h, List.mem_cons, List.not_mem_nil, or_false,
      List.mem_singleton] at hr
    rcases hr with rfl | rfl
    · refine ⟨⟨0, pm.id, tid, computeMatchScore sd sc dc rg date mode pm, "pending", ts⟩,
        ?_, by simp⟩
      rw [List.mem_flatMap]
      exact ⟨pm, hpm, by simp [matchRecordsFor, if_pos h]⟩
    · refine ⟨⟨0, tid, pm.id, computeMatchScore sd sc dc rg date mode pm, "pending", ts⟩,
        ?_, by simp⟩
      rw [List.mem_flatMap]
      exact ⟨pm, hpm, by simp [matchRecordsFor, if_pos h]⟩
  · simp [matchRecordsFor, if_neg h] at hr

/-- C3: the Match Set Builder only emits mirrored pairs — for every emitted
record the batch also holds the record with the two trip ids swapped, the same
score, status `pending`, and the same batch timestamp; the acceptance update
sets `accepted` on every row of either direction of the accepted pair and
never changes trip ids or scores, so it preserves the mirror invariant on
stores whose rows are pending or accepted (the only statuses the code writes);
and appending a builder batch to a store satisfying the mirror invariant keeps
the invariant. -/
theorem C3_mirror_records :
    (∀ (sd : String) (sc dc : Option Point) (rg : Option (List Point))
        (date mode : String) (tid : ℕ) (ts : String) (cands : List Trip)
        (r : TripMatch), r ∈ buildMatchInserts sd sc dc rg date mode tid ts cands →
        ∃ q ∈ buildMatchInserts sd sc dc rg date mode tid ts cands,
          q.tripId = r.matchedTripId ∧ q.matchedTripId = r.tripId ∧
          q.matchScore = r.matchScore ∧ q.status = "pending" ∧ r.status = "pending" ∧
          q.createdAt = ts ∧ r.createdAt = ts) ∧
    (∀ (store : List TripMatch) (t c : ℕ) (r : TripMatch),
        r ∈ updateAccept store t c →
        ((r.tripId = t ∧ r.matchedTripId = c) ∨ (r.tripId = c ∧ r.matchedTripId = t)) →
        r.status = "accepted") ∧
    (∀ (store : List TripMatch) (t c : ℕ),
        (∀ r ∈ store, r.status = "pending" ∨ r.status = "accepted") →
        mirrorInv store → mirrorInv (updateAccept store t c)) ∧
    (∀ (store : List TripMatch) (sd : String) (sc dc : Option Point)
        (rg : Option (List Point)) (date mode : String) (tid : ℕ) (ts : String)
        (cands : List Trip), mirrorInv store →
        mirrorInv (store ++ buildMatchInserts sd sc dc rg date mode tid ts cands)) := by
  refine ⟨buildMatchInserts_mirror, ?_, ?_, ?_⟩
  · intro store t c r hr hp
    rw [updateAccept_eq_map, List.mem_map] at hr
    obtain ⟨x, hx, rfl⟩ := hr
    obtain ⟨h1, h2, _⟩ := acceptFlip_ids t c x
    rw [h1, h2] at hp
    exact acceptFlip_sets t c x hp
  · intro store t c hall hinv r hr _
    rw [updateAccept_eq_map, List.mem_map] at hr
    obtain ⟨x, hx, rfl⟩ := hr
    obtain ⟨q, hq, hq1, hq2, hq3⟩ := hinv x hx (hall x hx)
    refine ⟨acceptFlip t c q, ?_, ?_, ?_, ?_⟩
    · rw [updateAccept_eq_map]
      exact List.mem_map_of_mem _ hq
    · rw [(acceptFlip_ids t c q).1, (acceptFlip_ids t c x).2.1, hq1]
    · rw [(acceptFlip_ids t c q).2.1, (acceptFlip_ids t c x).1, hq2]
    · rw [(acceptFlip_ids t c q).2.2, (acceptFlip_ids t c x).2.2, hq3]
  · intro store sd sc dc rg date mode tid ts cands hinv r hr hstat
    rcases List.mem_append.mp hr with h | h
    · obtain ⟨q, hq, hq1, hq2, hq3⟩ := hinv r h hstat
      exact ⟨q, List.mem_append_left _ hq, hq1, hq2, hq3⟩
    · obtain ⟨q, hq, hq1, hq2, hq3, _⟩ :=
        buildMatchInserts_mirror sd sc dc rg date mode tid ts cands r h
      exact ⟨q, List.mem_append_right _ hq, hq1, hq2, hq3⟩

/-- Witness for C3: a two-row pending store between trips 1 and 2; accepting
the pair preserves the mirror invariant. -/
theorem C3_mirror_records_witness :
    (∀ r ∈ [(⟨5, 1, 2, 80, "pending", "t"⟩ : TripMatch), ⟨6, 2, 1, 80, "pending", "t"⟩],
      r.status = "pending" ∨ r.status = "accepted") ∧
    mirrorInv [(⟨5, 1, 2, 80, "pending", "t"⟩ : TripMatch), ⟨6, 2, 1, 80, "pending", "t"⟩] ∧
    mirrorInv (updateAccept
      [(⟨5, 1, 2, 80, "pending", "t"⟩ : TripMatch), ⟨6, 2, 1, 80, "pending", "t"⟩] 1 2) := by
  have h1 : ∀ r ∈ [(⟨5, 1, 2, 80, "pending", "t"⟩ : TripMatch), ⟨6, 2, 1, 80, "pending", "t"⟩],
      r.status = "pending" ∨ r.status = "accepted" := by decide
  have h2 : mirrorInv
      [(⟨5, 1, 2, 80, "pending", "t"⟩ : TripMatch), ⟨6, 2, 1, 80, "pending", "t"⟩] := by
    unfold mirrorInv; decide
  exact ⟨h1, h2, C3_mirror_records.2.2.1
    [(⟨5, 1, 2, 80, "pending", "t"⟩ : TripMatch), ⟨6, 2, 1, 80, "pending", "t"⟩] 1 2 h1 h2⟩

/-- The row the handler inserts into `trips` on the success path. -/
def createdTripRow (env : Env) (uid : String) (body : ReqBody) (sc dc : Point) : Trip :=
  ⟨env.newTripId, uid, (body.source.getD "").trim, (body.destination.getD "").trim,
    some sc, some dc, (body.travelDate.getD "").trim, (body.travelTime.getD "").trim,
    (body.transportMode.getD "").trim, (body.optimizationMode.getD "").trim, "active",
    body.routeData.filter (fun s => !(s == "")), env.routeRes.map RouteResult.coordinates,
    env.now, env.now⟩

/-- Reduction of `postTrips` on the success path: authenticated session, no
`userId` in the body, all fields present, both geocodes resolved, insert
succeeded. -/
lemma postTrips_created (env : Env) (body : ReqBody) (st : Store) (u : String)
    (sc dc : Point)
    (hu : env.sessionUser = some u) (hk : body.hasUserIdKey = false)
    (hf : (fieldOk body.source && fieldOk body.destination && fieldOk body.travelDate &&
      fieldOk body.travelTime && fieldOk body.transportMode &&
      fieldOk body.optimizationMode) = true)
    (hsc : env.geocodeRes ((body.source.getD "").trim) = some sc)
    (hdc : env.geocodeRes ((body.destination.getD "").trim) = some dc)
    (hins : env.tripInsertOk = true) :
    postTrips env body st =
      (⟨201, none, some (createdTripRow env u body sc dc)⟩,
        ⟨st.trips ++ [createdTripRow env u body sc dc],
          if env.matchingFails then st.tripMatches
          else st.tripMatches ++ buildMatchInserts ((body.destination.getD "").trim)
            (some sc) (some dc) (env.routeRes.map RouteResult.coordinates)
            ((body.travelDate.getD "").trim) ((body.transportMode.getD "").trim)
            env.newTripId env.matchTs
            ((st.trips ++ [createdTripRow env u body sc dc]).filter fun t =>
              t.status == "active" && !(t.userId == u))⟩) := by
  unfold postTrips createdTripRow
  rw [hu]
  simp only [hk, hf, hsc, hdc, hins, Bool.false_eq_true, if_false, if_true]
  cases hm : env.matchingFails <;> simp

/-- C4: once the trip row is inserted, the outcome of the matching pass —
including a total failure injected by `matchingFails` — never changes the
response (status 201 carrying the created trip) and never removes the created
trip from the store. -/
theorem C4_matching_is_best_effort (env : Env) (body : ReqBody) (st : Store)
    (u : String) (sc dc : Point)
    (hu : env.sessionUser = some u) (hk : body.hasUserIdKey = false)
    (hf : (fieldOk body.source && fieldOk body.destination && fieldOk body.travelDate &&
      fieldOk body.travelTime && fieldOk body.transportMode &&
      fieldOk body.optimizationMode) = true)
    (hsc : env.geocodeRes ((body.source.getD "").trim) = some sc)
    (hdc : env.geocodeRes ((body.destination.getD "").trim) = some dc)
    (hins : env.tripInsertOk = true) :
    (postTrips env body st).1.status = 201 ∧
    (postTrips env body st).1.trip = some (createdTripRow env u body sc dc) ∧
    createdTripRow env u body sc dc ∈ (postTrips env body st).2.trips ∧
    ∀ b : Bool, (postTrips { env with matchingFails := b } body st).1 =
      (postTrips env body st).1 := by
  have h := postTrips_created env body st u sc dc hu hk hf hsc hdc hins
  refine ⟨by rw [h], by rw [h], ?_, ?_⟩
  · rw [h]
    exact List.mem_append_right _ (List.mem_singleton_self _)
  · intro b
    have hb := postTrips_created { env with matchingFails := b } body st u sc dc
      hu hk hf hsc hdc hins
    rw [h, hb]
    rfl

/-- Witness for C4 on a concrete environment and body. -/
theorem C4_matching_is_best_effort_witness :
    (⟨some "u", fun _ => some ((0 : ℝ), (0 : ℝ)), none, true, true, 7, "n", "m"⟩ :
      Env).sessionUser = some "u" ∧
    (⟨false, some "a", some "b", some "d", some "t", some "car", some "shortest",
      none⟩ : ReqBody).hasUserIdKey = false ∧
    (postTrips
      ⟨some "u", fun _ => some ((0 : ℝ), (0 : ℝ)), none, true, true, 7, "n", "m"⟩
      ⟨false, some "a", some "b", some "d", some "t", some "car", some "shortest", none⟩
      ⟨[], []⟩).1.status = 201 := by
  have h := C4_matching_is_best_effort
    ⟨some "u", fun _ => some ((0 : ℝ), (0 : ℝ)), none, true, true, 7, "n", "m"⟩
    ⟨false, some "a", some "b", some "d", some "t", some "car", some "shortest", none⟩
    ⟨[], []⟩ "u" ((0 : ℝ), (0 : ℝ)) ((0 : ℝ), (0 : ℝ))
    rfl rfl (by decide) rfl rfl rfl
  exact ⟨rfl, rfl, h.1⟩

/-- C7: if geocoding of the source or of the destination text yields no
coordinate, the handler answers 400 with code GEOCODING_FAILED and writes
nothing; if both geocodes succeed but routing yields no route, the trip is
still created and returned with status 201 and a `null` route geometry. -/
theorem C7_geocode_fatal_route_degraded (env : Env) (body : ReqBody) (st : Store)
    (u : String)
    (hu : env.sessionUser = some u) (hk : body.hasUserIdKey = false)
    (hf : (fieldOk body.source && fieldOk body.destination && fieldOk body.travelDate &&
      fieldOk body.travelTime && fieldOk body.transportMode &&
      fieldOk body.optimizationMode) = true) :
    (env.geocodeRes ((body.source.getD "").trim) = none ∨
      env.geocodeRes ((body.destination.getD "").trim) = none →
      (postTrips env body st).1.status = 400 ∧
      (postTrips env body st).1.code = some "GEOCODING_FAILED" ∧
      (postTrips env body st).2 = st) ∧
    (∀ sc dc : Point,
      env.geocodeRes ((body.source.getD "").trim) = some sc →
      env.geocodeRes ((body.destination.getD "").trim) = some dc →
      env.routeRes = none → env.tripInsertOk = true →
      (postTrips env body st).1.status = 201 ∧
      (postTrips env body st).1.trip = some (createdTripRow env u body sc dc) ∧
      (createdTripRow env u body sc dc).routeGeometry = none) := by
  constructor
  · intro hg
    unfold postTrips
    rw [hu]
    simp only [hk, hf, Bool.false_eq_true, if_false, if_true]
    cases hx : env.geocodeRes ((body.source.getD "").trim) with
    | none => exact ⟨rfl, rfl, rfl⟩
    | some sc =>
      cases hy : env.geocodeRes ((body.destination.getD "").trim) with
      | none => exact ⟨rfl, rfl, rfl⟩
      | some dc =>
        rcases hg with hg | hg
        · rw [hx] at hg; cases hg
        · rw [hy] at hg; cases hg
  · intro sc dc hsc hdc hroute hins
    have h := postTrips_created env body st u sc dc hu hk hf hsc hdc hins
    refine ⟨by rw [h], by rw [h], ?_⟩
    unfold createdTripRow
    rw [hroute]
    rfl

/-- Witness for C7: an environment whose geocoder rejects everything (first
part), then one that geocodes but has no route (second part). -/
theorem C7_geocode_fatal_route_degraded_witness :
    (postTrips
      ⟨some "u", fun _ => none, none, true, false, 7, "n", "m"⟩
      ⟨false, some "a", some "b", some "d", some "t", some "car", some "shortest", none⟩
      ⟨[], []⟩).1.code = some "GEOCODING_FAILED" ∧
    ((postTrips
      ⟨some "u", fun _ => some ((0 : ℝ), (0 : ℝ)), none, true, false, 7, "n", "m"⟩
      ⟨false, some "a", some "b", some "d", some "t", some "car", some "shortest", none⟩
      ⟨[], []⟩).1.status = 201 ∧
      (createdTripRow ⟨some "u", fun _ => some ((0 : ℝ), (0 : ℝ)), none, true, false, 7, "n", "m"⟩
        "u" ⟨false, some "a", some "b", some "d", some "t", some "car", some "shortest", none⟩
        ((0 : ℝ), (0 : ℝ)) ((0 : ℝ), (0 : ℝ))).routeGeometry = none) := by
  have h1 := (C7_geocode_fatal_route_degraded
    ⟨some "u", fun _ => none, none, true, false, 7, "n", "m"⟩
    ⟨false, some "a", some "b", some "d", some "t", some "car", some "shortest", none⟩
    ⟨[], []⟩ "u" rfl rfl (by decide)).1 (Or.inl rfl)
  have h2 := (C7_geocode_fatal_route_degraded
    ⟨some "u", fun _ => some ((0 : ℝ), (0 : ℝ)), none, true, false, 7, "n", "m"⟩
    ⟨false, some "a", some "b", some "d", some "t", some "car", some "shortest", none⟩
    ⟨[], []⟩ "u" rfl rfl (by decide)).2 ((0 : ℝ), (0 : ℝ)) ((0 : ℝ), (0 : ℝ)) rfl rfl rfl rfl
  exact ⟨h1.2.1, h2.1, h2.2.2⟩

/-- C10: a body carrying a `userId`/`user_id` key is rejected with 400 and
code USER_ID_NOT_ALLOWED before anything is written; and every trip the
handler adds to the store carries the authenticated session's user id, so no
body field can influence ownership. -/
theorem C10_owner_from_session (env : Env) (body : ReqBody) (st : Store) (u : String)
    (hu : env.sessionUser = some u) :
    (body.hasUserIdKey = true →
      (postTrips env body st).1.status = 400 ∧
      (postTrips env body st).1.code = some "USER_ID_NOT_ALLOWED" ∧
      (postTrips env body st).2 = st) ∧
    (∀ tr ∈ (postTrips env body st).2.trips, tr ∉ st.trips → tr.userId = u) := by
  constructor
  · intro hk
    unfold postTrips
    rw [hu]
    simp [hk]
  · intro tr htr hnot
    revert htr
    unfold postTrips
    rw [hu]
    cases hb : body.hasUserIdKey with
    | true =>
      intro htr
      simp at htr
      exact absurd htr hnot
    | false =>
      simp only [Bool.false_eq_true, if_false]
      cases hfb : (fieldOk body.source && fieldOk body.destination && fieldOk body.travelDate &&
          fieldOk body.travelTime && fieldOk body.transportMode &&
          fieldOk body.optimizationMode) with
      | false =>
        intro htr
        simp at htr
        exact absurd htr hnot
      | true =>
        simp only [if_true]
        cases hx : env.geocodeRes ((body.source.getD "").trim) with
        | none =>
          intro htr
          simp at htr
          exact absurd htr hnot
        | some sc =>
          cases hy : env.geocodeRes ((body.destination.getD "").trim) with
          | none =>
            intro htr
            simp at htr
            exact absurd htr hnot
          | some dc =>
            cases hi : env.tripInsertOk with
            | false =>
              intro htr
              simp at htr
              exact absurd htr hnot
            | true =>
              cases hm : env.matchingFails with
              | true =>
                intro htr
                simp at htr
                rcases htr with htr | htr
                · exact absurd htr hnot
                · rw [htr]
              | false =>
                intro htr
                simp at htr
                rcases htr with htr | htr
                · exact absurd htr hnot
                · rw [htr]

/-- Witness for C10: a body containing a `userId` key is rejected, and on a
successful creation the stored trip's owner is the session user. -/
theorem C10_owner_from_session_witness :
    ((⟨true, some "a", some "b", some "d", some "t", some "car", some "shortest",
        none⟩ : ReqBody).hasUserIdKey = true) ∧
    (postTrips
      ⟨some "u", fun _ => some ((0 : ℝ), (0 : ℝ)), none, true, false, 7, "n", "m"⟩
      ⟨true, some "a", some "b", some "d", some "t", some "car", some "shortest", none⟩
      ⟨[], []⟩).1.code = some "USER_ID_NOT_ALLOWED" := by
  have h := (C10_owner_from_session
    ⟨some "u", fun _ => some ((0 : ℝ), (0 : ℝ)), none, true, false, 7, "n", "m"⟩
    ⟨true, some "a", some "b", some "d", some "t", some "car", some "shortest", none⟩
    ⟨[], []⟩ "u" rfl).1 rfl
  exact ⟨rfl, h.2.1⟩

/-- C5 amended: on acceptance with no group for either trip id, exactly one
group is created, with the accepting user (the subject trip's owner, by the
ownership check) as `admin` and the matched trip's owner as `member`; when a
group for either trip id already exists, no second group is created and the
*accepting user* is added as `member` only if not already a member (no
duplicate membership) — the matched trip's owner is not added by this
operation. -/
theorem C5_group_provisioning (st : AcceptState) (sessionUserId : String)
    (tripId matchIdInt : ℕ) (now : String) (gid : ℕ) (trip : Trip) (mr : TripMatch)
    (matchedTrip : Trip)
    (hfind : st.trips.find? (fun t => t.id == tripId && t.userId == sessionUserId) =
      some trip)
    (hmatch : st.tripMatches.find? (fun m => m.id == matchIdInt) = some mr)
    (hdir : mr.tripId = tripId)
    (hmt : st.trips.find? (fun t => t.id == mr.matchedTripId) = some matchedTrip) :
    (st.groups.find?
        (fun g => g.tripId == some tripId || g.tripId == some mr.matchedTripId) = none →
      (acceptMatch st sessionUserId tripId matchIdInt now gid).2.groups =
        st.groups ++ [⟨gid, "Trip to " ++ trip.destination ++ " - " ++ trip.travelDate,
          some tripId, sessionUserId, "active", now, now⟩] ∧
      (acceptMatch st sessionUserId tripId matchIdInt now gid).2.groupMembers =
        st.groupMembers ++ [⟨gid, sessionUserId, "admin", now⟩,
          ⟨gid, matchedTrip.userId, "member", now⟩] ∧
      trip.userId = sessionUserId ∧
      (acceptMatch st sessionUserId tripId matchIdInt now gid).1.status = 201) ∧
    (∀ g : GroupRow, st.groups.find?
        (fun g => g.tripId == some tripId || g.tripId == some mr.matchedTripId) = some g →
      (acceptMatch st sessionUserId tripId matchIdInt now gid).2.groups = st.groups ∧
      (st.groupMembers.find?
          (fun m => m.groupId == g.id && m.userId == sessionUserId) = none →
        (acceptMatch st sessionUserId tripId matchIdInt now gid).2.groupMembers =
          st.groupMembers ++ [⟨g.id, sessionUserId, "member", now⟩]) ∧
      (∀ m0 : MemberRow, st.groupMembers.find?
          (fun m => m.groupId == g.id && m.userId == sessionUserId) = some m0 →
        (acceptMatch st sessionUserId tripId matchIdInt now gid).2.groupMembers =
          st.groupMembers) ∧
      (acceptMatch st sessionUserId tripId matchIdInt now gid).1.status = 200) := by
  have howner : trip.userId = sessionUserId := by
    have hp := List.find?_some hfind
    simp only [Bool.and_eq_true, beq_iff_eq] at hp
    exact hp.2
  constructor
  · intro hnog
    unfold acceptMatch
    simp [hfind, hmatch, hdir, hmt, hnog, howner]
  · intro g hg
    unfold acceptMatch
    simp only [hfind, hmatch, hdir, hmt, hg]
    refine ⟨?_, ?_, ?_, ?_⟩
    · cases hmem : st.groupMembers.find?
          (fun m => m.groupId == g.id && m.userId == sessionUserId) <;> simp [hmem]
    · intro hnm
      simp [hnm]
    · intro m0 hm0
      simp [hm0]
    · cases hmem : st.groupMembers.find?
          (fun m => m.groupId == g.id && m.userId == sessionUserId) <;> simp [hmem]

/-- Fixture: the accepting user's trip (trip 1, owned by alice). -/
def c5Alice : Trip :=
  ⟨1, "alice", "s", "Paris", none, none, "2024-01-01", "09:00", "car", "shortest",
    "active", none, none, "c", "c"⟩

/-- Fixture: the candidate trip (trip 3, owned by erin). -/
def c5Erin : Trip :=
  ⟨3, "erin", "s2", "Paris", none, none, "2024-01-01", "09:00", "car", "shortest",
    "active", none, none, "c", "c"⟩

/-- Fixture: the pending match record alice accepts (trip 1 → trip 3). -/
def c5Match : TripMatch := ⟨10, 1, 3, 80, "pending", "c"⟩

/-- Fixture: no group exists yet for either trip. -/
def c5StateNoGroup : AcceptState := ⟨[c5Alice, c5Erin], [c5Match], [], []⟩

/-- Fixture: a group for trip 1 already exists (from an earlier acceptance
with bob); alice is its admin, bob a member, erin not yet involved. -/
def c5StateWithGroup : AcceptState :=
  ⟨[c5Alice, c5Erin], [c5Match],
    [⟨100, "G", some 1, "alice", "active", "c", "c"⟩],
    [⟨100, "alice", "admin", "c"⟩, ⟨100, "bob", "member", "c"⟩]⟩

/-- C5 counterexample: alice (already a member) accepts the match with erin's
trip while a group for her trip already exists. The request succeeds (200) and
no second group is created, but the new participant erin is NOT added to the
existing group — the handler only ever inserts the accepting user. -/
theorem C5_new_participant_not_added :
    (acceptMatch c5StateWithGroup "alice" 1 10 "now" 101).1.status = 200 ∧
    (acceptMatch c5StateWithGroup "alice" 1 10 "now" 101).2.groups =
      c5StateWithGroup.groups ∧
    (acceptMatch c5StateWithGroup "alice" 1 10 "now" 101).2.groupMembers.filter
      (fun m => m.userId == "erin") = [] := by decide

/-- Witness for C5 on the no-prior-group state: all lookups resolve, no group
exists, and acceptance creates the one group with alice as admin and erin as
member. -/
theorem C5_group_provisioning_witness :
    c5StateNoGroup.trips.find? (fun t => t.id == 1 && t.userId == "alice") =
      some c5Alice ∧
    c5StateNoGroup.tripMatches.find? (fun m => m.id == 10) = some c5Match ∧
    c5Match.tripId = 1 ∧
    c5StateNoGroup.trips.find? (fun t => t.id == c5Match.matchedTripId) = some c5Erin ∧
    c5StateNoGroup.groups.find?
      (fun g => g.tripId == some 1 || g.tripId == some c5Match.matchedTripId) = none ∧
    ((acceptMatch c5StateNoGroup "alice" 1 10 "now" 101).2.groups =
      c5StateNoGroup.groups ++ [⟨101, "Trip to " ++ c5Alice.destination ++ " - " ++
        c5Alice.travelDate, some 1, "alice", "active", "now", "now"⟩] ∧
    (acceptMatch c5StateNoGroup "alice" 1 10 "now" 101).2.groupMembers =
      c5StateNoGroup.groupMembers ++ [⟨101, "alice", "admin", "now"⟩,
        ⟨101, c5Erin.userId, "member", "now"⟩] ∧
    c5Alice.userId = "alice" ∧
    (acceptMatch c5StateNoGroup "alice" 1 10 "now" 101).1.status = 201) :=
  ⟨rfl, rfl, rfl, rfl, rfl,
    (C5_group_provisioning c5StateNoGroup "alice" 1 10 "now" 101 c5Alice c5Match c5Erin
      rfl rfl rfl rfl).1 rfl⟩

end SmartRoute
